import Mathlib

/-!
Shallow embedding of the TimescaleDB background-worker policy subsystem
(`tsl/src/bgw_policy/job.c` and `tsl/src/bgw_policy/job_api.c`).

Catalog tables (jobs, job stats, hypertables, chunks, continuous aggregates,
pg_class-like relation entries, pg_index rows, policy chunk stats) are modelled
as lists of records inside a `Catalog` value.  Functions that in C raise via
`ereport(ERROR, ...)` are modelled in the `Except PgError` monad; since a
PostgreSQL `ERROR` aborts the enclosing transaction and rolls back all of its
writes, a function returning `.error e` commits no catalog mutation at all,
which the embedding reflects by discarding any intermediate catalog value.

Functions of this repository that are only declared here (their definitions
live in files such as `bgw/job_stat.c`, `dimension_slice.c` or the per-policy
`*_api.c` getters, which are not part of the sources) are modelled from the
spec; each such definition carries a doc comment starting with
`Modelled from the spec:`.
-/

/-- PostgreSQL `TimestampTz`: microseconds since the epoch, with the two
infinite sentinels below. -/
abbrev TimestampTz := Int

/-- PostgreSQL `PgInterval`, flattened to a microsecond count (the C compares
intervals with `interval_eq` and adds them to timestamps with
`timestamptz_pl_interval`; both operations factor through this value). -/
abbrev PgInterval := Int

/-- PostgreSQL `DT_NOBEGIN` (`-infinity`), used by the job-stat code as the
"unset" sentinel for `next_start`. -/
def DT_NOBEGIN : TimestampTz := -(2 ^ 63)

/-- PostgreSQL `DT_NOEND` (`+infinity`). -/
def DT_NOEND : TimestampTz := 2 ^ 63 - 1

/-- `InvalidOid`. -/
def InvalidOid : Int := 0

def USECS_PER_MINUTE : Int := 60000000

/-- Default max runtime for a custom job is unlimited for now (job_api.c). -/
def DEFAULT_MAX_RUNTIME : PgInterval := 0

/-- Right now, there is an infinite number of retries for custom jobs. -/
def DEFAULT_MAX_RETRIES : Int := -1

/-- Default retry period for reorder_jobs is currently 5 minutes. -/
def DEFAULT_RETRY_PERIOD : PgInterval := 5 * USECS_PER_MINUTE

def REORDER_SKIP_RECENT_DIM_SLICES_N : Nat := 3

/-- Schema holding the built-in policy procedures. -/
def INTERNAL_SCHEMA_NAME : String := "_timescaledb_internal"

/-- PostgreSQL `timestamptz_pl_interval`: an infinite timestamp absorbs the
addition; otherwise plain (overflow-checked in C) addition. -/
def timestamptz_pl_interval (t : TimestampTz) (i : PgInterval) : TimestampTz :=
  if t = DT_NOBEGIN ∨ t = DT_NOEND then t else t + i

/-- Error taxonomy used by `ereport` calls in the modelled sources.
`invalidRefreshWindow` is the `ERRCODE_INVALID_PARAMETER_VALUE` report of
`policy_refresh_cagg_read_and_validate_config`; it carries the two boundary
values printed in its `errdetail`. -/
inductive PgError where
  | invalidParameter (msg : String)
  | invalidRefreshWindow (wstart wend : Int)
  | undefinedObject (msg : String)
  | insufficientPrivilege (msg : String)
  | featureNotSupported (msg : String)
  | internalError (msg : String)
deriving DecidableEq, Repr

/-- Whether an error carries `ERRCODE_INVALID_PARAMETER_VALUE`. -/
def PgError.isInvalidParameter : PgError → Bool
  | .invalidParameter _ => true
  | .invalidRefreshWindow _ _ => true
  | _ => false

/-- A generic policy config document (`Jsonb`).  The field set is the union of
the four policy schemas of the spec; an absent key is `none`. -/
structure Jsonb where
  hypertable_id : Option Int := none
  index_name : Option String := none
  drop_after : Option Int := none
  compress_after : Option Int := none
  mat_hypertable_id : Option Int := none
  start_offset : Option Int := none
  end_offset : Option Int := none
deriving DecidableEq, Repr

/-- An open ("time") dimension of a hypertable.  `integer_now` is the value
the dimension's registered `integer_now` function would return, when one is
registered. -/
structure Dimension where
  id : Int
  isIntegerType : Bool
  integer_now : Option Int := none
deriving DecidableEq, Repr

structure Hypertable where
  id : Int
  schema_name : String
  table_name : String
  main_table_relid : Int
  open_dim : Dimension
deriving DecidableEq, Repr

structure ContinuousAgg where
  mat_hypertable_id : Int
  user_view_schema : String
  user_view_name : String
deriving DecidableEq, Repr

/-- A chunk together with its slice on the (single) open dimension. -/
structure Chunk where
  id : Int
  hypertable_id : Int
  dimension_id : Int
  range_start : Int
  range_end : Int
  compressed : Bool := false
  dropped : Bool := false
deriving DecidableEq, Repr

/-- A `pg_index` row: the index relation and the table it indexes. -/
structure PgIndexRow where
  index_relid : Int
  indrelid : Int
deriving DecidableEq, Repr

/-- A `pg_class`-like entry resolving (schema, name) to an oid, as consulted
by `get_relname_relid` / `get_namespace_oid`. -/
structure RelEntry where
  schema_name : String
  rel_name : String
  relid : Int
deriving DecidableEq, Repr

/-- `FormData_bgw_job`: the catalog row of a job. -/
structure BgwJobFd where
  id : Int
  application_name : String := ""
  job_type : String := ""
  schedule_interval : PgInterval
  max_runtime : PgInterval
  max_retries : Int
  retry_period : PgInterval
  proc_schema : String
  proc_name : String
  owner : String := ""
  scheduled : Bool
  config : Option Jsonb
deriving DecidableEq, Repr

/-- `FormData_bgw_job_stat` (the fields this subsystem touches). -/
structure BgwJobStatFd where
  job_id : Int
  last_start : TimestampTz
  last_finish : TimestampTz
  next_start : TimestampTz
deriving DecidableEq, Repr

/-- A row of the `bgw_policy_chunk_stats` metadata table. -/
structure ChunkStatRow where
  job_id : Int
  chunk_id : Int
  last_time_job_run : TimestampTz
deriving DecidableEq, Repr

/-- The catalog state visible to this subsystem, plus the ambient transaction
start time (`GetCurrentTransactionStartTimestamp` and the timer both read it).
-/
structure Catalog where
  jobs : List BgwJobFd := []
  job_stats : List BgwJobStatFd := []
  hypertables : List Hypertable := []
  caggs : List ContinuousAgg := []
  chunks : List Chunk := []
  relations : List RelEntry := []
  indexes : List PgIndexRow := []
  cagg_integer_now_dims : List (Int × Dimension) := []
  chunk_stats : List ChunkStatRow := []
  now : TimestampTz := 0
deriving DecidableEq, Repr

def ts_hypertable_get_by_id (cat : Catalog) (htid : Int) : Option Hypertable :=
  cat.hypertables.find? (fun h => h.id == htid)

def ts_hypertable_id_to_relid (cat : Catalog) (htid : Int) : Int :=
  match ts_hypertable_get_by_id cat htid with
  | some h => h.main_table_relid
  | none => InvalidOid

/-- `ts_hypertable_cache_get_cache_and_entry` with `CACHE_FLAG_NONE`: fails
when the relid does not belong to a hypertable. -/
def ts_hypertable_cache_get_cache_and_entry (cat : Catalog) (relid : Int) :
    Except PgError Hypertable :=
  match cat.hypertables.find? (fun h => h.main_table_relid == relid) with
  | some h => .ok h
  | none => .error (.invalidParameter "table is not a hypertable")

/-- `get_relname_relid` against a schema identified by name (the intervening
`get_namespace_oid` call is folded into the name-based lookup); `InvalidOid`
when the relation does not exist. -/
def get_relname_relid (cat : Catalog) (name schema : String) : Int :=
  match cat.relations.find? (fun r => r.schema_name == schema && r.rel_name == name) with
  | some r => r.relid
  | none => InvalidOid

def ts_continuous_agg_find_by_mat_hypertable_id (cat : Catalog) (matId : Int) :
    Option ContinuousAgg :=
  cat.caggs.find? (fun c => c.mat_hypertable_id == matId)

def ts_chunk_get_by_id (cat : Catalog) (cid : Int) : Option Chunk :=
  cat.chunks.find? (fun c => c.id == cid)

/-- Modelled from the spec: `ts_bgw_job_stat_find` (bgw/job_stat.c is not in
the sources) — look up the per-job execution history row. -/
def ts_bgw_job_stat_find (cat : Catalog) (job_id : Int) : Option BgwJobStatFd :=
  cat.job_stats.find? (fun s => s.job_id == job_id)

/-- Modelled from the spec: `ts_bgw_job_stat_set_next_start` (bgw/job_stat.c
is not in the sources) — overwrite `next_start` of the job's stat row. -/
def ts_bgw_job_stat_set_next_start (cat : Catalog) (job_id : Int) (ns : TimestampTz) :
    Catalog :=
  { cat with
    job_stats := cat.job_stats.map
      (fun s => if s.job_id == job_id then { s with next_start := ns } else s) }

/-- Modelled from the spec: `ts_bgw_job_stat_update_next_start` (bgw/job_stat.c
is not in the sources) — like `set`, but a caller passing `allow_unset = true`
may store the unset sentinel `DT_NOBEGIN`, leaving the job's `next_start`
unset; without `allow_unset` the sentinel is refused. -/
def ts_bgw_job_stat_update_next_start (cat : Catalog) (job_id : Int) (ns : TimestampTz)
    (allow_unset : Bool) : Catalog :=
  if !allow_unset && (ns == DT_NOBEGIN) then cat
  else ts_bgw_job_stat_set_next_start cat job_id ns

/-- Modelled from the spec: `ts_bgw_job_stat_upsert_next_start` (bgw/job_stat.c
is not in the sources) — update the stat row when one exists, otherwise lazily
seed one whose only meaningful field is `next_start`. -/
def ts_bgw_job_stat_upsert_next_start (cat : Catalog) (job_id : Int) (ns : TimestampTz) :
    Catalog :=
  match ts_bgw_job_stat_find cat job_id with
  | some _ => ts_bgw_job_stat_set_next_start cat job_id ns
  | none =>
    { cat with
      job_stats := cat.job_stats ++
        [{ job_id := job_id, last_start := DT_NOBEGIN, last_finish := DT_NOBEGIN,
           next_start := ns }] }

/-- `enable_fast_restart` (job.c): on completion, reuse the previous
`last_start` as `next_start` when a stat row exists, otherwise seed one at the
current transaction start time. -/
def enable_fast_restart (cat : Catalog) (job_id : Int) : Catalog :=
  match ts_bgw_job_stat_find cat job_id with
  | some job_stat => ts_bgw_job_stat_set_next_start cat job_id job_stat.last_start
  | none => ts_bgw_job_stat_upsert_next_start cat job_id cat.now

/-- Modelled from the spec: config getter `policy_retention_get_hypertable_id`
(retention_api.c is not in the sources) — the retention schema requires
`hypertable_id`. -/
def policy_retention_get_hypertable_id (c : Jsonb) : Except PgError Int :=
  match c.hypertable_id with
  | some i => .ok i
  | none => .error (.invalidParameter "could not find hypertable_id in config")

/-- Modelled from the spec: `policy_retention_get_drop_after_int`
(retention_api.c is not in the sources) — integer lag for integer-partitioned
dimensions. -/
def policy_retention_get_drop_after_int (c : Jsonb) : Except PgError Int :=
  match c.drop_after with
  | some i => .ok i
  | none => .error (.invalidParameter "could not find drop_after in config")

/-- Modelled from the spec: `policy_retention_get_drop_after_interval`
(retention_api.c is not in the sources) — duration lag, flattened to
microseconds. -/
def policy_retention_get_drop_after_interval (c : Jsonb) : Except PgError Int :=
  match c.drop_after with
  | some i => .ok i
  | none => .error (.invalidParameter "could not find drop_after in config")

/-- Modelled from the spec: config getter `policy_reorder_get_hypertable_id`
(reorder_api.c is not in the sources). -/
def policy_reorder_get_hypertable_id (c : Jsonb) : Except PgError Int :=
  match c.hypertable_id with
  | some i => .ok i
  | none => .error (.invalidParameter "could not find hypertable_id in config")

/-- Modelled from the spec: config getter `policy_reorder_get_index_name`
(reorder_api.c is not in the sources). -/
def policy_reorder_get_index_name (c : Jsonb) : Except PgError String :=
  match c.index_name with
  | some s => .ok s
  | none => .error (.invalidParameter "could not find index_name in config")

/-- Modelled from the spec: config getter `policy_compression_get_hypertable_id`
(compression_api.c is not in the sources). -/
def policy_compression_get_hypertable_id (c : Jsonb) : Except PgError Int :=
  match c.hypertable_id with
  | some i => .ok i
  | none => .error (.invalidParameter "could not find hypertable_id in config")

/-- Modelled from the spec: `policy_compression_get_compress_after_int`
(compression_api.c is not in the sources). -/
def policy_compression_get_compress_after_int (c : Jsonb) : Except PgError Int :=
  match c.compress_after with
  | some i => .ok i
  | none => .error (.invalidParameter "could not find compress_after in config")

/-- Modelled from the spec: `policy_compression_get_compress_after_interval`
(compression_api.c is not in the sources). -/
def policy_compression_get_compress_after_interval (c : Jsonb) : Except PgError Int :=
  match c.compress_after with
  | some i => .ok i
  | none => .error (.invalidParameter "could not find compress_after in config")

/-- Modelled from the spec: config getter
`policy_continuous_aggregate_get_mat_hypertable_id`
(continuous_aggregate_api.c is not in the sources). -/
def policy_continuous_aggregate_get_mat_hypertable_id (c : Jsonb) : Except PgError Int :=
  match c.mat_hypertable_id with
  | some i => .ok i
  | none => .error (.invalidParameter "could not find mat_hypertable_id in config")

/-- The reference "now" of a dimension: its `integer_now` function's value for
integer-partitioned dimensions (error when that function is missing, as
`subtract_integer_from_now` asserts), the transaction timestamp otherwise. -/
def dimension_now_value (cat : Catalog) (dim : Dimension) : Except PgError Int :=
  if dim.isIntegerType then
    match dim.integer_now with
    | some v => .ok v
    | none => .error (.internalError "integer_now function not set")
  else .ok cat.now

/-- `get_window_boundary` (job.c): returns now() − lag as a value of the
partitioning type, choosing the integer or the interval getter by the
dimension's partitioning type. -/
def get_window_boundary (cat : Catalog) (dim : Dimension) (cfg : Jsonb)
    (int_getter : Jsonb → Except PgError Int)
    (interval_getter : Jsonb → Except PgError Int) : Except PgError Int :=
  if dim.isIntegerType then
    match int_getter cfg with
    | .error e => .error e
    | .ok lag =>
      match dimension_now_value cat dim with
      | .error e => .error e
      | .ok nowv => .ok (nowv - lag)
  else
    match interval_getter cfg with
    | .error e => .error e
    | .ok lag => .ok (cat.now - lag)

/-- `get_open_dimension_for_hypertable` (job.c): for an integer-partitioned
open dimension, swap in the dimension carrying the `integer_now` function
found through the continuous aggregate backed by this materialization id;
error when there is none. -/
def get_open_dimension_for_hypertable (cat : Catalog) (ht : Hypertable) :
    Except PgError Dimension :=
  if ht.open_dim.isIntegerType then
    match cat.cagg_integer_now_dims.find? (fun p => p.1 == ht.id) with
    | some p => .ok p.2
    | none => .error (.internalError "missing integer_now function for hypertable")
  else .ok ht.open_dim

/-- `PolicyRetentionData` (the drop target and window boundary). -/
structure PolicyRetentionData where
  object_relid : Int
  boundary : Int
  boundary_type_is_int : Bool
deriving DecidableEq, Repr

/-- `policy_retention_read_and_validate_config` (job.c): resolve the
configured hypertable, compute the drop boundary, and redirect the drop
target to the continuous aggregate's user view when the hypertable is a
materialization table (reverse lookup by materialization id). -/
def policy_retention_read_and_validate_config (cat : Catalog) (cfg : Jsonb) :
    Except PgError PolicyRetentionData :=
  match policy_retention_get_hypertable_id cfg with
  | .error e => .error e
  | .ok htid =>
    let object_relid := ts_hypertable_id_to_relid cat htid
    match ts_hypertable_cache_get_cache_and_entry cat object_relid with
    | .error e => .error e
    | .ok hypertable =>
      match get_open_dimension_for_hypertable cat hypertable with
      | .error e => .error e
      | .ok open_dim =>
        match get_window_boundary cat open_dim cfg
            policy_retention_get_drop_after_int
            policy_retention_get_drop_after_interval with
        | .error e => .error e
        | .ok boundary =>
          let target :=
            match ts_continuous_agg_find_by_mat_hypertable_id cat hypertable.id with
            | some cagg => get_relname_relid cat cagg.user_view_name cagg.user_view_schema
            | none => object_relid
          .ok { object_relid := target, boundary := boundary,
                boundary_type_is_int := open_dim.isIntegerType }

/-- `PolicyReorderData`. -/
structure PolicyReorderData where
  hypertable : Hypertable
  index_relid : Int
deriving DecidableEq, Repr

/-- `check_valid_index` (job.c): the named index must exist in the
hypertable's schema and be an index on the hypertable's main table. -/
def check_valid_index (cat : Catalog) (ht : Hypertable) (index_name : String) :
    Except PgError Unit :=
  let index_oid := get_relname_relid cat index_name ht.schema_name
  match cat.indexes.find? (fun i => i.index_relid == index_oid) with
  | none => .error (.invalidParameter "reorder index not found")
  | some idx =>
    if idx.indrelid != ht.main_table_relid then
      .error (.invalidParameter "invalid reorder index")
    else .ok ()

/-- `policy_reorder_read_and_validate_config` (job.c). -/
def policy_reorder_read_and_validate_config (cat : Catalog) (cfg : Jsonb) :
    Except PgError PolicyReorderData :=
  match policy_reorder_get_hypertable_id cfg with
  | .error e => .error e
  | .ok htid =>
    match policy_reorder_get_index_name cfg with
    | .error e => .error e
    | .ok index_name =>
      match ts_hypertable_get_by_id cat htid with
      | none => .error (.invalidParameter "configuration hypertable id not found")
      | some ht =>
        match check_valid_index cat ht index_name with
        | .error e => .error e
        | .ok _ =>
          .ok { hypertable := ht,
                index_relid := get_relname_relid cat index_name ht.schema_name }

/-- `PolicyCompressionData` (the cache handle is not part of the state). -/
structure PolicyCompressionData where
  hypertable : Hypertable
deriving DecidableEq, Repr

/-- `policy_compression_read_and_validate_config` (job.c). -/
def policy_compression_read_and_validate_config (cat : Catalog) (cfg : Jsonb) :
    Except PgError PolicyCompressionData :=
  match policy_compression_get_hypertable_id cfg with
  | .error e => .error e
  | .ok htid =>
    let table_relid := ts_hypertable_id_to_relid cat htid
    match ts_hypertable_cache_get_cache_and_entry cat table_relid with
    | .error e => .error e
    | .ok ht => .ok { hypertable := ht }

/-- Modelled from the spec: `policy_refresh_cagg_get_refresh_start`
(continuous_aggregate_api.c is not in the sources) — window start as
`start_offset` relative to now on the given dimension. -/
def policy_refresh_cagg_get_refresh_start (cat : Catalog) (dim : Dimension)
    (cfg : Jsonb) : Except PgError Int :=
  match cfg.start_offset with
  | none => .error (.invalidParameter "could not find start_offset in config")
  | some off =>
    match dimension_now_value cat dim with
    | .error e => .error e
    | .ok nowv => .ok (nowv - off)

/-- Modelled from the spec: `policy_refresh_cagg_get_refresh_end`
(continuous_aggregate_api.c is not in the sources) — window end as
`end_offset` relative to now on the given dimension. -/
def policy_refresh_cagg_get_refresh_end (cat : Catalog) (dim : Dimension)
    (cfg : Jsonb) : Except PgError Int :=
  match cfg.end_offset with
  | none => .error (.invalidParameter "could not find end_offset in config")
  | some off =>
    match dimension_now_value cat dim with
    | .error e => .error e
    | .ok nowv => .ok (nowv - off)

/-- `PolicyContinuousAggData`. -/
structure PolicyContinuousAggData where
  window_is_int : Bool
  window_start : Int
  window_end : Int
  cagg : Option ContinuousAgg
deriving DecidableEq, Repr

/-- `policy_refresh_cagg_read_and_validate_config` (job.c): a window with
`refresh_start >= refresh_end` is an invalid-parameter error whose detail
reports both boundary values.  (The C dereferences the hypertable without a
null check; an absent materialization hypertable is modelled as an internal
error.) -/
def policy_refresh_cagg_read_and_validate_config (cat : Catalog) (cfg : Jsonb) :
    Except PgError PolicyContinuousAggData :=
  match policy_continuous_aggregate_get_mat_hypertable_id cfg with
  | .error e => .error e
  | .ok materialization_id =>
    match ts_hypertable_get_by_id cat materialization_id with
    | none => .error (.internalError "materialization hypertable not found")
    | some mat_ht =>
      match get_open_dimension_for_hypertable cat mat_ht with
      | .error e => .error e
      | .ok open_dim =>
        match policy_refresh_cagg_get_refresh_start cat open_dim cfg with
        | .error e => .error e
        | .ok refresh_start =>
          match policy_refresh_cagg_get_refresh_end cat open_dim cfg with
          | .error e => .error e
          | .ok refresh_end =>
            if refresh_start ≥ refresh_end then
              .error (.invalidRefreshWindow refresh_start refresh_end)
            else
              .ok { window_is_int := open_dim.isIntegerType,
                    window_start := refresh_start, window_end := refresh_end,
                    cagg := ts_continuous_agg_find_by_mat_hypertable_id cat
                      materialization_id }

/-- Storage-layer actions an executor requests from external collaborators
(`chunk_invoke_drop_chunks`, `reorder_chunk`, compression, cagg refresh). -/
inductive StorageAction where
  | dropChunks (relid : Int) (boundary : Int)
  | reorderChunk (chunk_id : Int) (index_relid : Int)
  | compressChunk (chunk_id : Int)
  | refreshCagg (mat_hypertable_id : Int) (wstart wend : Int)
deriving DecidableEq, Repr

/-- Result of one policy-executor run: the catalog after the run, the boolean
the executor returns, the NOTICE messages it emitted, and the storage-layer
actions it requested. -/
structure ExecOut where
  cat : Catalog
  result : Bool
  notices : List String
  actions : List StorageAction
deriving DecidableEq, Repr

/-- Pick the chunk with the least `range_start` (first listed on ties) — the
deterministic "oldest chunk" selection of the slice-scan helpers. -/
def pick_oldest (cs : List Chunk) : Option Chunk :=
  cs.foldl
    (fun acc c =>
      match acc with
      | none => some c
      | some b => if c.range_start < b.range_start then some c else some b)
    none

/-- The distinct dimension slices present on a dimension, read off the chunks. -/
def dimension_slices (cat : Catalog) (dimId : Int) : List (Int × Int) :=
  ((cat.chunks.filter (fun c => c.dimension_id == dimId)).map
    (fun c => (c.range_start, c.range_end))).dedup

/-- Insert a slice into a list kept in descending `range_start` order. -/
def insert_desc (x : Int × Int) : List (Int × Int) → List (Int × Int)
  | [] => [x]
  | y :: t => if y.1 ≥ x.1 then y :: insert_desc x t else x :: y :: t

/-- Insertion sort of slices by descending `range_start`. -/
def sort_desc : List (Int × Int) → List (Int × Int)
  | [] => []
  | x :: t => insert_desc x (sort_desc t)

/-- Modelled from the spec: `ts_dimension_slice_nth_latest_slice`
(dimension_slice.c is not in the sources) — the n-th newest distinct slice by
`range_start`, `none` when fewer than n slices exist. -/
def ts_dimension_slice_nth_latest_slice (cat : Catalog) (dimId : Int) (n : Nat) :
    Option (Int × Int) :=
  (sort_desc (dimension_slices cat dimId)).get? (n - 1)

/-- Modelled from the spec: `ts_dimension_slice_oldest_valid_chunk_for_reorder`
(dimension_slice.c is not in the sources) — the oldest chunk on the dimension
whose slice starts at or before the bound, not compressed, not dropped, and
never reordered for this job according to `bgw_policy_chunk_stats`. -/
def ts_dimension_slice_oldest_valid_chunk_for_reorder (cat : Catalog)
    (job_id dimId bound : Int) : Option Int :=
  (pick_oldest (cat.chunks.filter (fun c =>
    c.dimension_id == dimId && decide (c.range_start ≤ bound) &&
    !c.compressed && !c.dropped &&
    !(cat.chunk_stats.any (fun s => s.job_id == job_id && s.chunk_id == c.id))))).map
    (fun c => c.id)

/-- `get_chunk_id_to_reorder` (job.c): eligible chunks are at least the 3rd
newest by dimension slice; `none` plays the C's `-1`. -/
def get_chunk_id_to_reorder (cat : Catalog) (job_id : Int) (ht : Hypertable) :
    Option Int :=
  match ts_dimension_slice_nth_latest_slice cat ht.open_dim.id
      REORDER_SKIP_RECENT_DIM_SLICES_N with
  | none => none
  | some nth =>
    ts_dimension_slice_oldest_valid_chunk_for_reorder cat job_id ht.open_dim.id nth.1

/-- Modelled from the spec: `ts_dimension_slice_get_chunkid_to_compress`
(dimension_slice.c is not in the sources) — any one chunk on the dimension
whose slice ends strictly before the boundary and is not yet compressed nor
dropped; deterministic oldest-first choice. -/
def ts_dimension_slice_get_chunkid_to_compress (cat : Catalog) (dimId boundary : Int) :
    Option Int :=
  (pick_oldest (cat.chunks.filter (fun c =>
    c.dimension_id == dimId && !c.compressed && !c.dropped &&
    decide (c.range_end < boundary)))).map (fun c => c.id)

/-- `get_chunk_to_compress` (job.c): boundary = now − compress_after, then the
slice scan; `none` plays the C's `INVALID_CHUNK_ID`. -/
def get_chunk_to_compress (cat : Catalog) (dim : Dimension) (cfg : Jsonb) :
    Except PgError (Option Int) :=
  match get_window_boundary cat dim cfg
      policy_compression_get_compress_after_int
      policy_compression_get_compress_after_interval with
  | .error e => .error e
  | .ok boundary => .ok (ts_dimension_slice_get_chunkid_to_compress cat dim.id boundary)

/-- Modelled from the spec: `ts_bgw_policy_chunk_stats_record_job_run`
(chunk_stats.c is not in the sources) — append a row to the persistent
chunk-stats table. -/
def ts_bgw_policy_chunk_stats_record_job_run (cat : Catalog) (job_id cid : Int)
    (t : TimestampTz) : Catalog :=
  let row : ChunkStatRow := { job_id := job_id, chunk_id := cid, last_time_job_run := t }
  { cat with chunk_stats := cat.chunk_stats ++ [row] }

/-- `tsl_compress_chunk_wrapper` on an uncompressed chunk: the chunk becomes
compressed. -/
def tsl_compress_chunk_wrapper (cat : Catalog) (cid : Int) : Catalog :=
  { cat with
    chunks := cat.chunks.map
      (fun c => if c.id == cid then { c with compressed := true } else c) }

/-- `policy_retention_execute` (job.c): validate, then request the drop
against the resolved target. -/
def policy_retention_execute (cat : Catalog) (job_id : Int) (cfg : Jsonb) :
    Except PgError ExecOut :=
  match policy_retention_read_and_validate_config cat cfg with
  | .error e => .error e
  | .ok pd =>
    .ok { cat := cat, result := true, notices := [],
          actions := [StorageAction.dropChunks pd.object_relid pd.boundary] }

/-- `policy_reorder_execute` (job.c): no eligible chunk is a NOTICE and
success; otherwise reorder one chunk, record the run, and fast-restart when
another eligible chunk remains.  (The chunk is fetched with
`fail_if_not_found = false` and dereferenced unconditionally; a dangling id is
modelled as an internal error.) -/
def policy_reorder_execute (cat : Catalog) (job_id : Int) (cfg : Jsonb) :
    Except PgError ExecOut :=
  match policy_reorder_read_and_validate_config cat cfg with
  | .error e => .error e
  | .ok policy =>
    match get_chunk_id_to_reorder cat job_id policy.hypertable with
    | none =>
      .ok { cat := cat, result := true,
            notices := ["no chunks need reordering"], actions := [] }
    | some chunk_id =>
      match ts_chunk_get_by_id cat chunk_id with
      | none => .error (.internalError "chunk not found")
      | some _chunk =>
        let cat1 := ts_bgw_policy_chunk_stats_record_job_run cat job_id chunk_id cat.now
        let cat2 :=
          if (get_chunk_id_to_reorder cat1 job_id policy.hypertable).isSome then
            enable_fast_restart cat1 job_id
          else cat1
        .ok { cat := cat2, result := true, notices := [],
              actions := [StorageAction.reorderChunk chunk_id policy.index_relid] }

/-- `policy_compression_execute` (job.c): compress at most one chunk; no
eligible chunk is a NOTICE and success; after compressing, re-scan and
fast-restart when another eligible chunk remains. -/
def policy_compression_execute (cat : Catalog) (job_id : Int) (cfg : Jsonb) :
    Except PgError ExecOut :=
  match policy_compression_read_and_validate_config cat cfg with
  | .error e => .error e
  | .ok pd =>
    match get_chunk_to_compress cat pd.hypertable.open_dim cfg with
    | .error e => .error e
    | .ok none =>
      match get_chunk_to_compress cat pd.hypertable.open_dim cfg with
      | .error e => .error e
      | .ok resel =>
        let cat2 := if resel.isSome then enable_fast_restart cat job_id else cat
        .ok { cat := cat2, result := true,
              notices := ["no chunks that satisfy compress chunk policy"],
              actions := [] }
    | .ok (some chunkid) =>
      match ts_chunk_get_by_id cat chunkid with
      | none => .error (.internalError "chunk not found")
      | some _chunk =>
        let cat1 := tsl_compress_chunk_wrapper cat chunkid
        match get_chunk_to_compress cat1 pd.hypertable.open_dim cfg with
        | .error e => .error e
        | .ok resel =>
          let cat2 := if resel.isSome then enable_fast_restart cat1 job_id else cat1
          .ok { cat := cat2, result := true, notices := [],
                actions := [StorageAction.compressChunk chunkid] }

/-- `policy_refresh_cagg_execute` (job.c). -/
def policy_refresh_cagg_execute (cat : Catalog) (job_id : Int) (cfg : Jsonb) :
    Except PgError ExecOut :=
  match policy_refresh_cagg_read_and_validate_config cat cfg with
  | .error e => .error e
  | .ok pd =>
    match policy_continuous_aggregate_get_mat_hypertable_id cfg with
    | .error e => .error e
    | .ok matId =>
      .ok { cat := cat, result := true, notices := [],
            actions := [StorageAction.refreshCagg matId pd.window_start pd.window_end] }

/-- `job_config_check` (job_api.c): policy validation is dispatched only for
callables in the internal schema named exactly like one of the four built-in
policies; any other callable's config is accepted without validation. -/
def job_config_check (cat : Catalog) (proc_schema proc_name : String) (config : Jsonb) :
    Except PgError Unit :=
  if proc_schema == INTERNAL_SCHEMA_NAME then
    if proc_name == "policy_retention" then
      (policy_retention_read_and_validate_config cat config).map (fun _ => ())
    else if proc_name == "policy_reorder" then
      (policy_reorder_read_and_validate_config cat config).map (fun _ => ())
    else if proc_name == "policy_compression" then
      (policy_compression_read_and_validate_config cat config).map (fun _ => ())
    else if proc_name == "policy_refresh_continuous_aggregate" then
      (policy_refresh_cagg_read_and_validate_config cat config).map (fun _ => ())
    else .ok ()
  else .ok ()

/-- PostgreSQL `interval_eq` on the flattened interval value. -/
def interval_eq (a b : PgInterval) : Bool := a == b

/-- The config re-validation step of `bgw_job_tuple_update_by_id`: a NULL
config skips `job_config_check`. -/
def job_config_check_step (cat : Catalog) (j : BgwJobFd) : Except PgError Unit :=
  match j.config with
  | some cfg => job_config_check cat j.proc_schema j.proc_name cfg
  | none => .ok ()

/-- The "when we update the schedule interval, modify the next start time as
well" step of `bgw_job_tuple_update_by_id`. -/
def alter_next_start_step (cat : Catalog) (updated_job old : BgwJobFd) : Catalog :=
  if !(interval_eq old.schedule_interval updated_job.schedule_interval) then
    match ts_bgw_job_stat_find cat updated_job.id with
    | some stat =>
      ts_bgw_job_stat_update_next_start cat updated_job.id
        (timestamptz_pl_interval stat.last_finish updated_job.schedule_interval) true
    | none => cat
  else cat

/-- `bgw_job_tuple_update_by_id` (job_api.c), given the found old tuple.  When
the schedule interval changes and a stat row exists, `next_start` is
recomputed as `last_finish + new interval` (the unset sentinel is allowed
through `allow_unset = true`).  The config is re-validated before the row is
written; since `ereport(ERROR)` aborts the transaction, a validation failure
rolls back the earlier stat write too, which the `.error` return models by
discarding the intermediate catalog. -/
def bgw_job_tuple_update_by_id (cat : Catalog) (updated_job old : BgwJobFd) :
    Except PgError Catalog :=
  let cat1 := alter_next_start_step cat updated_job old
  match job_config_check_step cat1 updated_job with
  | .error e => .error e
  | .ok _ =>
    let new_row : BgwJobFd :=
      { old with
        schedule_interval := updated_job.schedule_interval,
        max_runtime := updated_job.max_runtime,
        max_retries := updated_job.max_retries,
        retry_period := updated_job.retry_period,
        scheduled := updated_job.scheduled,
        config := updated_job.config }
    .ok { cat1 with
          jobs := cat1.jobs.map (fun r => if r.id == old.id then new_row else r) }

/-- `ts_bgw_job_update_by_id` (job_api.c): index-qualified scan for the job
row; the tuple-update callback runs only when a row is found. -/
def ts_bgw_job_update_by_id (cat : Catalog) (job_id : Int) (job : BgwJobFd) :
    Except PgError Catalog :=
  match cat.jobs.find? (fun r => r.id == job_id) with
  | none => .ok cat
  | some old => bgw_job_tuple_update_by_id cat job old

/-- `find_job` (job_api.c).  A NULL job id with `missing_ok = false` is an
invalid-parameter error; a missing job raises unless `missing_ok`, in which
case a NOTICE is emitted and `none` returned. -/
def find_job (cat : Catalog) (job_id : Int) (null_job_id missing_ok : Bool) :
    Except PgError (Option BgwJobFd) :=
  if null_job_id && !missing_ok then
    .error (.invalidParameter "job ID cannot be NULL")
  else
    match cat.jobs.find? (fun r => r.id == job_id) with
    | some j => .ok (some j)
    | none =>
      if missing_ok then .ok none
      else .error (.internalError "job not found")

/-- The optional arguments of `alter_job`; `none` is a SQL NULL (the C leaves
the corresponding field untouched). -/
structure AlterArgs where
  schedule_interval : Option PgInterval := none
  max_runtime : Option PgInterval := none
  max_retries : Option Int := none
  retry_period : Option PgInterval := none
  scheduled : Option Bool := none
  config : Option Jsonb := none
  next_start : Option TimestampTz := none
  if_exists : Bool := false
deriving DecidableEq, Repr

/-- The row `alter_job` returns. -/
structure AlterResult where
  job_id : Int
  schedule_interval : PgInterval
  max_runtime : PgInterval
  max_retries : Int
  retry_period : PgInterval
  scheduled : Bool
  config : Option Jsonb
  next_start : TimestampTz
deriving DecidableEq, Repr

/-- `job_alter` (job_api.c): load the job, overlay the non-NULL arguments,
update the catalog row (re-validating a present config), then apply an
explicit `next_start` and report the row.  The permission check
(`ts_bgw_job_permission_check`) consults external role state and is elided. -/
def job_alter (cat : Catalog) (job_id : Int) (a : AlterArgs) :
    Except PgError (Option (Catalog × AlterResult)) :=
  match find_job cat job_id false a.if_exists with
  | .error e => .error e
  | .ok none => .ok none
  | .ok (some job0) =>
    let job : BgwJobFd :=
      { job0 with
        schedule_interval := a.schedule_interval.getD job0.schedule_interval,
        max_runtime := a.max_runtime.getD job0.max_runtime,
        max_retries := a.max_retries.getD job0.max_retries,
        retry_period := a.retry_period.getD job0.retry_period,
        scheduled := a.scheduled.getD job0.scheduled,
        config :=
          match a.config with
          | some c => some c
          | none => job0.config }
    match ts_bgw_job_update_by_id cat job_id job with
    | .error e => .error e
    | .ok cat1 =>
      let cat2 :=
        match a.next_start with
        | some ns => ts_bgw_job_stat_upsert_next_start cat1 job_id ns
        | none => cat1
      let next_start :=
        match ts_bgw_job_stat_find cat2 job_id with
        | some stat => stat.next_start
        | none => DT_NOBEGIN
      .ok (some (cat2,
        { job_id := job.id, schedule_interval := job.schedule_interval,
          max_runtime := job.max_runtime, max_retries := job.max_retries,
          retry_period := job.retry_period, scheduled := job.scheduled,
          config := job.config, next_start := next_start }))

/-- The arguments of `add_job`; `none` is a SQL NULL.  The `proc` argument is
carried as its resolved (schema, name) pair. -/
structure AddArgs where
  proc : Option (String × String) := none
  schedule_interval : Option PgInterval := none
  config : Option Jsonb := none
  initial_start : Option TimestampTz := none
  scheduled : Option Bool := none
deriving DecidableEq, Repr

/-- `job_add` (job_api.c).  `has_execute_priv` and `owner_can_run_bgw` stand
for the external `pg_proc_aclcheck` and `ts_bgw_job_validate_job_owner`
verdicts; `next_job_id` is the id the external sequence assigns.  A present
config is checked by `job_config_check` before the row is inserted; an
`initial_start` seeds the job-stat row. -/
def job_add (cat : Catalog) (a : AddArgs) (owner_name : String)
    (has_execute_priv owner_can_run_bgw : Bool) (next_job_id : Int) :
    Except PgError (Catalog × Int) :=
  match a.proc with
  | none => .error (.invalidParameter "function or procedure cannot be NULL")
  | some (proc_schema, proc_name) =>
    match a.schedule_interval with
    | none => .error (.invalidParameter "schedule interval cannot be NULL")
    | some schedule_interval =>
      if !has_execute_priv then
        .error (.insufficientPrivilege "permission denied for function")
      else if !owner_can_run_bgw then
        .error (.insufficientPrivilege "permission to start background workers denied")
      else
        let check :=
          match a.config with
          | some cfg => job_config_check cat proc_schema proc_name cfg
          | none => .ok ()
        match check with
        | .error e => .error e
        | .ok _ =>
          let row : BgwJobFd :=
            { id := next_job_id,
              application_name := "User-Defined Action",
              job_type := "custom",
              schedule_interval := schedule_interval,
              max_runtime := DEFAULT_MAX_RUNTIME,
              max_retries := DEFAULT_MAX_RETRIES,
              retry_period := DEFAULT_RETRY_PERIOD,
              proc_schema := proc_schema,
              proc_name := proc_name,
              owner := owner_name,
              scheduled := a.scheduled.getD true,
              config := a.config }
          let cat1 := { cat with jobs := cat.jobs ++ [row] }
          let cat2 :=
            match a.initial_start with
            | some ts => ts_bgw_job_stat_upsert_next_start cat1 next_job_id ts
            | none => cat1
          .ok (cat2, next_job_id)

/-- `prokind` of the resolved callable. -/
inductive ProKind where
  | function
  | procedure
  | other
deriving DecidableEq, Repr

/-- Ambient transaction/snapshot state of the process:
`IsTransactionOrTransactionBlock` and the active-snapshot stack depth. -/
structure XactState where
  inXact : Bool
  snapshots : Nat
deriving DecidableEq, Repr

/-- `ActiveSnapshotSet`. -/
def ActiveSnapshotSet (s : XactState) : Bool := s.snapshots != 0

/-- `StartTransactionCommand`. -/
def StartTransactionCommand (s : XactState) : XactState := { s with inXact := true }

/-- `PushActiveSnapshot (GetTransactionSnapshot ())`. -/
def PushActiveSnapshot (s : XactState) : XactState :=
  { s with snapshots := s.snapshots + 1 }

/-- `PopActiveSnapshot`: popping with an empty active-snapshot stack is an
error in snapmgr.c (popping an already-inactive snapshot is unsafe). -/
def PopActiveSnapshot (s : XactState) : Except PgError XactState :=
  if s.snapshots == 0 then .error (.internalError "empty active snapshot stack")
  else .ok { s with snapshots := s.snapshots - 1 }

/-- `CommitTransactionCommand`: committing with no transaction in progress is
an error; a commit leaves no transaction and no active snapshots. -/
def CommitTransactionCommand (s : XactState) : Except PgError XactState :=
  if !s.inXact then .error (.internalError "no transaction in progress")
  else .ok { inXact := false, snapshots := 0 }

/-- What one `job_execute` run did: the final ambient state, whether this call
opened the transaction and installed the snapshot, the ambient state the
callable left behind, and whether this call popped a snapshot / committed. -/
structure JobExecResult where
  state : XactState
  transaction_started : Bool
  pushed_snapshot : Bool
  after_callable : XactState
  popped_snapshot : Bool
  committed : Bool
deriving DecidableEq, Repr

/-- `job_execute` (job.c), with the callable's effect on the ambient
transaction/snapshot state abstracted as a function (a policy may commit and
restart its own transaction, invalidating the snapshot).  The
function/procedure dispatch paths differ only in engine plumbing; both run the
callable once.  After return, the snapshot is popped only if one is still
active and this call installed it, and the surrounding transaction is
committed only if this call opened it. -/
def job_execute_cleanup (transaction_started pushed_snapshot : Bool)
    (s3 : XactState) : Except PgError JobExecResult :=
  let pop := pushed_snapshot && ActiveSnapshotSet s3
  match (if pop then PopActiveSnapshot s3 else .ok s3) with
  | .error e => .error e
  | .ok s4 =>
    match (if transaction_started then CommitTransactionCommand s4 else .ok s4) with
    | .error e => .error e
    | .ok s5 =>
      .ok { state := s5, transaction_started := transaction_started,
            pushed_snapshot := pushed_snapshot, after_callable := s3,
            popped_snapshot := pop, committed := transaction_started }

def job_execute (prokind : ProKind) (callable : XactState → XactState)
    (s0 : XactState) : Except PgError JobExecResult :=
  let transaction_started := !s0.inXact
  let s1 := if transaction_started then StartTransactionCommand s0 else s0
  let pushed_snapshot := !(ActiveSnapshotSet s1)
  let s2 := if pushed_snapshot then PushActiveSnapshot s1 else s1
  match prokind with
  | .other => .error (.featureNotSupported "unsupported function type")
  | _ => job_execute_cleanup transaction_started pushed_snapshot (callable s2)

/-- The snapshot-pop and commit epilogue of `job_execute` never fails when the
callable left a transaction in progress (PostgreSQL guarantees this on return
from a CALL): the pop happens only behind the `ActiveSnapshotSet` recheck, and
the commit only when this call opened the transaction. -/
theorem job_execute_cleanup_ok (transaction_started pushed_snapshot : Bool)
    (s3 : XactState) (hx : transaction_started = true → s3.inXact = true) :
    ∃ r, job_execute_cleanup transaction_started pushed_snapshot s3 = .ok r ∧
      r.transaction_started = transaction_started ∧
      r.pushed_snapshot = pushed_snapshot ∧
      r.after_callable = s3 ∧
      r.popped_snapshot = (pushed_snapshot && ActiveSnapshotSet s3) ∧
      r.committed = transaction_started := by
  unfold job_execute_cleanup
  by_cases hpop : (pushed_snapshot && ActiveSnapshotSet s3) = true
  · have h0 : (s3.snapshots == 0) = false := by
      have h2 := ((Bool.and_eq_true _ _).mp hpop).2
      simp only [ActiveSnapshotSet, bne_iff_ne, ne_eq] at h2
      simpa using h2
    by_cases hts : transaction_started = true
    · have hx3 := hx hts
      simp only [hpop, if_true, PopActiveSnapshot, h0, Bool.false_eq_true, if_false, hts,
        CommitTransactionCommand, hx3, Bool.not_true]
      exact ⟨_, rfl, rfl, rfl, rfl, rfl, rfl⟩
    · have hts2 : transaction_started = false := by
        simpa using hts
      simp only [hpop, if_true, PopActiveSnapshot, h0, Bool.false_eq_true, if_false, hts2]
      exact ⟨_, rfl, rfl, rfl, rfl, rfl, rfl⟩
  · have hpop2 : (pushed_snapshot && ActiveSnapshotSet s3) = false := by
      simpa using hpop
    by_cases hts : transaction_started = true
    · have hx3 := hx hts
      simp only [hpop2, Bool.false_eq_true, if_false, hts, if_true, CommitTransactionCommand,
        hx3, Bool.not_true]
      exact ⟨_, rfl, rfl, rfl, rfl, rfl, rfl⟩
    · have hts2 : transaction_started = false := by
        simpa using hts
      simp only [hpop2, Bool.false_eq_true, if_false, hts2]
      exact ⟨_, rfl, rfl, rfl, rfl, rfl, rfl⟩

/-- Updating exactly the `p`-rows of a list commutes with `find? p`, provided
the update preserves `p`. -/
theorem find_map_update {α : Type} (p : α → Bool) (u : α → α) (l : List α)
    (hp : ∀ a, p a = true → p (u a) = true) :
    (l.map (fun a => if p a then u a else a)).find? p = (l.find? p).map u := by
  induction l with
  | nil => rfl
  | cons a t ih =>
    by_cases h : p a = true
    · simp [List.find?_cons, h, hp a h]
    · simp only [Bool.not_eq_true] at h
      simp [List.find?_cons, h, ih]

/-- Appending a matching row to a list in which `find? p` fails makes `find? p`
return that row. -/
theorem find_append_of_none {α : Type} (p : α → Bool) (l : List α) (x : α)
    (hl : l.find? p = none) (hx : p x = true) :
    (l ++ [x]).find? p = some x := by
  induction l with
  | nil => simp [List.find?_cons, hx]
  | cons a t ih =>
    by_cases h : p a = true
    · simp [List.find?_cons, h] at hl
    · simp only [Bool.not_eq_true] at h
      simp only [List.find?_cons, h, List.cons_append] at hl ⊢
      exact ih hl

/-- C1: for every callable (including one that commits or restarts its own
transaction, abstracted as an arbitrary effect on the ambient state that
leaves a transaction in progress, as PostgreSQL guarantees on return from a
CALL), `job_execute` completes without error — so it never pops an inactive
snapshot and never commits without an open transaction — pops the snapshot
only if one is still active and this call installed it, and commits the
surrounding transaction exactly when this call opened it. -/
theorem job_execute_frames_safely (prokind : ProKind)
    (callable : XactState → XactState) (s0 : XactState)
    (hpk : prokind ≠ ProKind.other)
    (hcall : ∀ t, (callable t).inXact = true) :
    ∃ r, job_execute prokind callable s0 = .ok r ∧
      r.popped_snapshot = (r.pushed_snapshot && ActiveSnapshotSet r.after_callable) ∧
      (r.popped_snapshot = true →
        r.pushed_snapshot = true ∧ ActiveSnapshotSet r.after_callable = true) ∧
      r.committed = r.transaction_started ∧
      r.transaction_started = !s0.inXact := by
  have main : ∀ s3 : XactState, s3.inXact = true →
      ∀ ps : Bool,
      ∃ r, job_execute_cleanup (!s0.inXact) ps s3 = .ok r ∧
        r.popped_snapshot = (r.pushed_snapshot && ActiveSnapshotSet r.after_callable) ∧
        (r.popped_snapshot = true →
          r.pushed_snapshot = true ∧ ActiveSnapshotSet r.after_callable = true) ∧
        r.committed = r.transaction_started ∧
        r.transaction_started = !s0.inXact := by
    intro s3 hx3 ps
    obtain ⟨r, hr, h1, h2, h3, h4, h5⟩ :=
      job_execute_cleanup_ok (!s0.inXact) ps s3 (fun _ => hx3)
    refine ⟨r, hr, ?_, ?_, ?_, h1⟩
    · rw [h4, h2, h3]
    · intro hp
      have := (Bool.and_eq_true _ _).mp (h4 ▸ hp)
      exact ⟨h2.symm ▸ this.1, h3.symm ▸ this.2⟩
    · rw [h5, h1]
  cases prokind with
  | other => exact absurd rfl hpk
  | function => exact main _ (hcall _) _
  | procedure => exact main _ (hcall _) _

/-- C1 witness: a procedure that commits its own transaction (leaving a fresh
transaction with the snapshot stack empty), started from outside any
transaction, runs through `job_execute` with the guarantees above. -/
theorem job_execute_frames_safely_witness :
    (ProKind.procedure ≠ ProKind.other) ∧
    (∃ r, job_execute ProKind.procedure
        (fun _ => { inXact := true, snapshots := 0 })
        { inXact := false, snapshots := 0 } = .ok r ∧
      r.popped_snapshot = (r.pushed_snapshot && ActiveSnapshotSet r.after_callable) ∧
      (r.popped_snapshot = true →
        r.pushed_snapshot = true ∧ ActiveSnapshotSet r.after_callable = true) ∧
      r.committed = r.transaction_started ∧
      r.transaction_started = !(XactState.mk false 0).inXact) :=
  ⟨by decide,
   job_execute_frames_safely ProKind.procedure
     (fun _ => { inXact := true, snapshots := 0 })
     { inXact := false, snapshots := 0 } (by decide) (fun _ => rfl)⟩

/-- `job_config_check` never reads the job-stat table, so a stat write does
not affect validation. -/
theorem job_config_check_stats_irrel (cat : Catalog) (js : List BgwJobStatFd)
    (ps pn : String) (cfg : Jsonb) :
    job_config_check { cat with job_stats := js } ps pn cfg =
      job_config_check cat ps pn cfg := by
  cases cat
  rfl

/-- The `next_start` recomputation step of the alter path leaves
`job_config_check` unchanged. -/
theorem job_config_check_after_next_start (cat : Catalog) (j : Int)
    (ns : TimestampTz) (u : Bool) (ps pn : String) (cfg : Jsonb) :
    job_config_check (ts_bgw_job_stat_update_next_start cat j ns u) ps pn cfg =
      job_config_check cat ps pn cfg := by
  unfold ts_bgw_job_stat_update_next_start ts_bgw_job_stat_set_next_start
  split
  · rfl
  · exact job_config_check_stats_irrel cat _ ps pn cfg

/-- C2: an Alter that supplies a config failing its policy validator aborts
the whole tuple update with that validator's error: no job-row field (and no
stat-row field) is committed, because the `ereport(ERROR)` path of
`bgw_job_tuple_update_by_id` leaves `.error e` as the transaction's only
outcome. -/
theorem alter_config_validation_is_atomic (cat : Catalog) (updated_job old : BgwJobFd)
    (cfg : Jsonb) (e : PgError)
    (hcfg : updated_job.config = some cfg)
    (hfail : job_config_check cat updated_job.proc_schema updated_job.proc_name cfg =
      .error e) :
    bgw_job_tuple_update_by_id cat updated_job old = .error e := by
  have hsame : job_config_check (alter_next_start_step cat updated_job old)
      updated_job.proc_schema updated_job.proc_name cfg =
      job_config_check cat updated_job.proc_schema updated_job.proc_name cfg := by
    unfold alter_next_start_step
    split
    · split
      · rw [job_config_check_after_next_start]
      · rfl
    · rfl
  have hstep : job_config_check_step (alter_next_start_step cat updated_job old)
      updated_job = .error e := by
    unfold job_config_check_step
    rw [hcfg]
    show job_config_check (alter_next_start_step cat updated_job old)
      updated_job.proc_schema updated_job.proc_name cfg = Except.error e
    rw [hsame]
    exact hfail
  unfold bgw_job_tuple_update_by_id
  simp only [hstep]

/-- C2 witness: a retention-policy job whose new config is missing
`hypertable_id` fails validation, and the tuple update commits nothing. -/
theorem alter_config_validation_is_atomic_witness :
    ({ id := 1, schedule_interval := 100, max_runtime := 0, max_retries := -1,
       retry_period := 1, proc_schema := "_timescaledb_internal",
       proc_name := "policy_retention", scheduled := true,
       config := some {} } : BgwJobFd).config = some ({} : Jsonb) ∧
    bgw_job_tuple_update_by_id {}
      { id := 1, schedule_interval := 100, max_runtime := 0, max_retries := -1,
        retry_period := 1, proc_schema := "_timescaledb_internal",
        proc_name := "policy_retention", scheduled := true, config := some {} }
      { id := 1, schedule_interval := 50, max_runtime := 0, max_retries := -1,
        retry_period := 1, proc_schema := "_timescaledb_internal",
        proc_name := "policy_retention", scheduled := true, config := none } =
      .error (.invalidParameter "could not find hypertable_id in config") :=
  ⟨rfl,
   alter_config_validation_is_atomic {}
     { id := 1, schedule_interval := 100, max_runtime := 0, max_retries := -1,
       retry_period := 1, proc_schema := "_timescaledb_internal",
       proc_name := "policy_retention", scheduled := true, config := some {} }
     { id := 1, schedule_interval := 50, max_runtime := 0, max_retries := -1,
       retry_period := 1, proc_schema := "_timescaledb_internal",
       proc_name := "policy_retention", scheduled := true, config := none }
     {} (.invalidParameter "could not find hypertable_id in config") rfl rfl⟩

/-- C3: when an Alter changes `schedule_interval` to `I` and a JobStat with
`last_finish = T` exists, the committed catalog carries
`next_start = timestamptz_pl_interval T I`, which is `T + I` for a finite `T`
and stays the unset sentinel when `T` is the sentinel (the only way `T + I`
can be the sentinel, since finite overflow aborts); when the interval is
unchanged or no JobStat exists, the stat table is untouched. -/
theorem alter_schedule_interval_recomputes_next_start
    (cat cat2 : Catalog) (updated_job old : BgwJobFd) (stat : BgwJobStatFd)
    (hok : bgw_job_tuple_update_by_id cat updated_job old = .ok cat2) :
    (old.schedule_interval ≠ updated_job.schedule_interval →
      ts_bgw_job_stat_find cat updated_job.id = some stat →
      (ts_bgw_job_stat_find cat2 updated_job.id =
        some { stat with
          next_start :=
            timestamptz_pl_interval stat.last_finish updated_job.schedule_interval } ∧
       (stat.last_finish ≠ DT_NOBEGIN → stat.last_finish ≠ DT_NOEND →
         timestamptz_pl_interval stat.last_finish updated_job.schedule_interval =
           stat.last_finish + updated_job.schedule_interval) ∧
       (stat.last_finish = DT_NOBEGIN →
         timestamptz_pl_interval stat.last_finish updated_job.schedule_interval =
           DT_NOBEGIN))) ∧
    (old.schedule_interval = updated_job.schedule_interval →
      cat2.job_stats = cat.job_stats) ∧
    (ts_bgw_job_stat_find cat updated_job.id = none →
      cat2.job_stats = cat.job_stats) := by
  have hstats2 : cat2.job_stats = (alter_next_start_step cat updated_job old).job_stats := by
    unfold bgw_job_tuple_update_by_id at hok
    rcases hcheck : job_config_check_step (alter_next_start_step cat updated_job old)
        updated_job with e | u
    · simp [hcheck] at hok
    · simp only [hcheck] at hok
      injection hok with h
      rw [← h]
  refine ⟨?_, ?_, ?_⟩
  · intro hne hstat
    have hcond : (interval_eq old.schedule_interval updated_job.schedule_interval) = false := by
      unfold interval_eq
      exact beq_eq_false_iff_ne.mpr hne
    have hstep : alter_next_start_step cat updated_job old =
        ts_bgw_job_stat_set_next_start cat updated_job.id
          (timestamptz_pl_interval stat.last_finish updated_job.schedule_interval) := by
      unfold alter_next_start_step
      rw [hcond]
      simp only [Bool.not_false, if_true]
      rw [hstat]
      unfold ts_bgw_job_stat_update_next_start
      simp
    refine ⟨?_, ?_, ?_⟩
    · unfold ts_bgw_job_stat_find
      rw [hstats2, hstep]
      unfold ts_bgw_job_stat_set_next_start
      have hmap := find_map_update (fun s : BgwJobStatFd => s.job_id == updated_job.id)
        (fun s => { s with
          next_start :=
            timestamptz_pl_interval stat.last_finish updated_job.schedule_interval })
        cat.job_stats (fun a ha => ha)
      unfold ts_bgw_job_stat_find at hstat
      simp only [hmap, hstat]
      rfl
    · intro h1 h2
      unfold timestamptz_pl_interval
      rw [if_neg]
      rintro (h | h)
      · exact h1 h
      · exact h2 h
    · intro h1
      unfold timestamptz_pl_interval
      rw [if_pos (Or.inl h1), h1]
  · intro heq
    rw [hstats2]
    unfold alter_next_start_step
    have hcond : (interval_eq old.schedule_interval updated_job.schedule_interval) = true := by
      unfold interval_eq
      exact beq_iff_eq.mpr heq
    rw [hcond]
    simp
  · intro hnone
    rw [hstats2]
    unfold alter_next_start_step
    split
    · rw [hnone]
    · rfl

/-- C3 witness: altering a job's interval from 100 to 200 with
`last_finish = 1000` commits `next_start = 1200`. -/
theorem alter_schedule_interval_recomputes_next_start_witness :
    ts_bgw_job_stat_find
      { jobs := [{ id := 1, schedule_interval := 200, max_runtime := 0, max_retries := -1,
                   retry_period := 1, proc_schema := "public", proc_name := "p",
                   scheduled := true, config := none }],
        job_stats := [{ job_id := 1, last_start := 5, last_finish := 1000,
                        next_start := 1200 }] } 1 =
      some { job_id := 1, last_start := 5, last_finish := 1000, next_start := 1200 } := by
  have h := alter_schedule_interval_recomputes_next_start
    { jobs := [{ id := 1, schedule_interval := 100, max_runtime := 0, max_retries := -1,
                 retry_period := 1, proc_schema := "public", proc_name := "p",
                 scheduled := true, config := none }],
      job_stats := [{ job_id := 1, last_start := 5, last_finish := 1000, next_start := 7 }] }
    { jobs := [{ id := 1, schedule_interval := 200, max_runtime := 0, max_retries := -1,
                 retry_period := 1, proc_schema := "public", proc_name := "p",
                 scheduled := true, config := none }],
      job_stats := [{ job_id := 1, last_start := 5, last_finish := 1000,
                      next_start := 1200 }] }
    { id := 1, schedule_interval := 200, max_runtime := 0, max_retries := -1,
      retry_period := 1, proc_schema := "public", proc_name := "p",
      scheduled := true, config := none }
    { id := 1, schedule_interval := 100, max_runtime := 0, max_retries := -1,
      retry_period := 1, proc_schema := "public", proc_name := "p",
      scheduled := true, config := none }
    { job_id := 1, last_start := 5, last_finish := 1000, next_start := 7 }
    (by rfl)
  have h2 := (h.1 (by decide) rfl).1
  exact h2

/-- Mapping a function that fixes every element of a list is the identity. -/
theorem map_eq_self_of_eq {α : Type} (l : List α) (f : α → α)
    (h : ∀ a ∈ l, f a = a) : l.map f = l := by
  induction l with
  | nil => rfl
  | cons a t ih =>
    rw [List.map_cons, h a (by simp), ih (fun b hb => h b (by simp [hb]))]

/-- C9: an Alter with every optional argument NULL leaves the whole catalog —
every job-row field and every job-stat row — unchanged, and reports the job's
current fields, provided the job exists (with its id unique) and its stored
config still passes validation (the C re-validates even an unchanged config).
-/
theorem alter_all_null_is_noop (cat : Catalog) (job_id : Int) (job0 : BgwJobFd)
    (hfind : cat.jobs.find? (fun r => r.id == job_id) = some job0)
    (huniq : ∀ r ∈ cat.jobs, (r.id == job_id) = true → r = job0)
    (hcheck : job_config_check_step cat job0 = .ok ()) :
    job_alter cat job_id {} = .ok (some (cat,
      { job_id := job0.id, schedule_interval := job0.schedule_interval,
        max_runtime := job0.max_runtime, max_retries := job0.max_retries,
        retry_period := job0.retry_period, scheduled := job0.scheduled,
        config := job0.config,
        next_start :=
          match ts_bgw_job_stat_find cat job_id with
          | some stat => stat.next_start
          | none => DT_NOBEGIN })) := by
  have hid : job0.id = job_id := by
    have h := List.find?_some hfind
    simpa using h
  have hrow : ({ job0 with
      schedule_interval := job0.schedule_interval,
      max_runtime := job0.max_runtime,
      max_retries := job0.max_retries,
      retry_period := job0.retry_period,
      scheduled := job0.scheduled,
      config := job0.config } : BgwJobFd) = job0 := rfl
  have hmap : cat.jobs.map (fun r => if r.id == job0.id then job0 else r) = cat.jobs := by
    apply map_eq_self_of_eq
    intro r hr
    by_cases h : (r.id == job0.id) = true
    · rw [if_pos h]
      rw [hid] at h
      exact (huniq r hr h).symm
    · rw [if_neg h]
  have h2 : bgw_job_tuple_update_by_id cat job0 job0 = .ok cat := by
    have hstep : alter_next_start_step cat job0 job0 = cat := by
      unfold alter_next_start_step
      simp [interval_eq]
    unfold bgw_job_tuple_update_by_id
    simp only [hstep, hcheck, hrow, hmap]
  have h3 : ts_bgw_job_update_by_id cat job_id job0 = .ok cat := by
    unfold ts_bgw_job_update_by_id
    rw [hfind]
    exact h2
  have h1 : find_job cat job_id false false = .ok (some job0) := by
    unfold find_job
    simp [hfind]
  unfold job_alter
  simp only [h1, Option.getD_none, hrow, h3]

/-- C9 witness: altering job 1 with every optional argument NULL returns the
unchanged catalog and the job's current fields, with `next_start` read from
the untouched stat row. -/
theorem alter_all_null_is_noop_witness :
    job_alter
      { jobs := [{ id := 1, schedule_interval := 100, max_runtime := 0, max_retries := -1,
                   retry_period := 1, proc_schema := "public", proc_name := "p",
                   scheduled := true, config := none }],
        job_stats := [{ job_id := 1, last_start := 2, last_finish := 3,
                        next_start := 42 }] } 1 {} =
      .ok (some (
        { jobs := [{ id := 1, schedule_interval := 100, max_runtime := 0, max_retries := -1,
                     retry_period := 1, proc_schema := "public", proc_name := "p",
                     scheduled := true, config := none }],
          job_stats := [{ job_id := 1, last_start := 2, last_finish := 3,
                          next_start := 42 }] },
        { job_id := 1, schedule_interval := 100, max_runtime := 0, max_retries := -1,
          retry_period := 1, scheduled := true, config := none, next_start := 42 })) := by
  have h := alter_all_null_is_noop
    { jobs := [{ id := 1, schedule_interval := 100, max_runtime := 0, max_retries := -1,
                 retry_period := 1, proc_schema := "public", proc_name := "p",
                 scheduled := true, config := none }],
      job_stats := [{ job_id := 1, last_start := 2, last_finish := 3, next_start := 42 }] }
    1
    { id := 1, schedule_interval := 100, max_runtime := 0, max_retries := -1,
      retry_period := 1, proc_schema := "public", proc_name := "p",
      scheduled := true, config := none }
    rfl (by decide) rfl
  exact h

/-- C4: once the refresh config resolves to computed window boundaries
`ws`/`we`, validation fails with the invalid-parameter report carrying both
boundary values exactly when `ws ≥ we`, and succeeds with the window
`[ws, we)` when `ws < we`. -/
theorem refresh_window_validation (cat : Catalog) (cfg : Jsonb) (matId : Int)
    (mat_ht : Hypertable) (dim : Dimension) (ws we : Int)
    (h1 : cfg.mat_hypertable_id = some matId)
    (h2 : ts_hypertable_get_by_id cat matId = some mat_ht)
    (h3 : get_open_dimension_for_hypertable cat mat_ht = .ok dim)
    (h4 : policy_refresh_cagg_get_refresh_start cat dim cfg = .ok ws)
    (h5 : policy_refresh_cagg_get_refresh_end cat dim cfg = .ok we) :
    (ws ≥ we →
      policy_refresh_cagg_read_and_validate_config cat cfg =
        .error (.invalidRefreshWindow ws we) ∧
      (PgError.invalidRefreshWindow ws we).isInvalidParameter = true) ∧
    (ws < we →
      policy_refresh_cagg_read_and_validate_config cat cfg =
        .ok { window_is_int := dim.isIntegerType, window_start := ws, window_end := we,
              cagg := ts_continuous_agg_find_by_mat_hypertable_id cat matId }) := by
  have hg : policy_continuous_aggregate_get_mat_hypertable_id cfg = .ok matId := by
    unfold policy_continuous_aggregate_get_mat_hypertable_id
    rw [h1]
  constructor
  · intro hge
    constructor
    · unfold policy_refresh_cagg_read_and_validate_config
      simp only [hg, h2, h3, h4, h5]
      rw [if_pos hge]
    · rfl
  · intro hlt
    unfold policy_refresh_cagg_read_and_validate_config
    simp only [hg, h2, h3, h4, h5]
    rw [if_neg (not_le.mpr hlt)]

/-- C4 witness: with now = 0, offsets yielding start = 100, end = 50 fail with
the report carrying both values; offsets yielding start = 50, end = 100
succeed. -/
theorem refresh_window_validation_witness :
    policy_refresh_cagg_read_and_validate_config
      { hypertables := [{ id := 7, schema_name := "public", table_name := "m",
                          main_table_relid := 70,
                          open_dim := { id := 3, isIntegerType := false } }], now := 0 }
      { mat_hypertable_id := some 7, start_offset := some (-100),
        end_offset := some (-50) } =
      .error (.invalidRefreshWindow 100 50) ∧
    (PgError.invalidRefreshWindow 100 50).isInvalidParameter = true ∧
    policy_refresh_cagg_read_and_validate_config
      { hypertables := [{ id := 7, schema_name := "public", table_name := "m",
                          main_table_relid := 70,
                          open_dim := { id := 3, isIntegerType := false } }], now := 0 }
      { mat_hypertable_id := some 7, start_offset := some (-50),
        end_offset := some (-100) } =
      .ok { window_is_int := false, window_start := 50, window_end := 100,
            cagg := none } := by
  have hA := refresh_window_validation
    { hypertables := [{ id := 7, schema_name := "public", table_name := "m",
                        main_table_relid := 70,
                        open_dim := { id := 3, isIntegerType := false } }], now := 0 }
    { mat_hypertable_id := some 7, start_offset := some (-100), end_offset := some (-50) }
    7 { id := 7, schema_name := "public", table_name := "m", main_table_relid := 70,
        open_dim := { id := 3, isIntegerType := false } }
    { id := 3, isIntegerType := false } 100 50 rfl rfl rfl rfl rfl
  have hB := refresh_window_validation
    { hypertables := [{ id := 7, schema_name := "public", table_name := "m",
                        main_table_relid := 70,
                        open_dim := { id := 3, isIntegerType := false } }], now := 0 }
    { mat_hypertable_id := some 7, start_offset := some (-50), end_offset := some (-100) }
    7 { id := 7, schema_name := "public", table_name := "m", main_table_relid := 70,
        open_dim := { id := 3, isIntegerType := false } }
    { id := 3, isIntegerType := false } 50 100 rfl rfl rfl rfl rfl
  obtain ⟨hA1, hA2⟩ := hA.1 (by decide)
  exact ⟨hA1, hA2, hB.2 (by decide)⟩

/-- With a prior stat row, the fast-restart controller rewrites its
`next_start` to that row's `last_start`. -/
theorem enable_fast_restart_find_some (cat : Catalog) (job_id : Int)
    (stat : BgwJobStatFd)
    (hstat : ts_bgw_job_stat_find cat job_id = some stat) :
    ts_bgw_job_stat_find (enable_fast_restart cat job_id) job_id =
      some { stat with next_start := stat.last_start } := by
  unfold enable_fast_restart
  rw [hstat]
  unfold ts_bgw_job_stat_set_next_start ts_bgw_job_stat_find
  have hmap := find_map_update (fun s : BgwJobStatFd => s.job_id == job_id)
    (fun s => { s with next_start := stat.last_start }) cat.job_stats (fun a ha => ha)
  unfold ts_bgw_job_stat_find at hstat
  simp only [hmap, hstat]
  rfl

/-- Without a prior stat row, the fast-restart controller seeds one whose
`next_start` is the current transaction start time. -/
theorem enable_fast_restart_find_none (cat : Catalog) (job_id : Int)
    (hnone : ts_bgw_job_stat_find cat job_id = none) :
    ts_bgw_job_stat_find (enable_fast_restart cat job_id) job_id =
      some { job_id := job_id, last_start := DT_NOBEGIN, last_finish := DT_NOBEGIN,
             next_start := cat.now } := by
  unfold enable_fast_restart
  rw [hnone]
  unfold ts_bgw_job_stat_upsert_next_start
  rw [hnone]
  unfold ts_bgw_job_stat_find
  unfold ts_bgw_job_stat_find at hnone
  apply find_append_of_none _ _ _ hnone
  simp

/-- C5: when the fast-restart controller fires, a job with an existing stat
row gets `next_start := last_start` of that row; a job without one gets a
freshly seeded row with `next_start := now` (the current transaction start
time). -/
theorem fast_restart_sets_next_start (cat : Catalog) (job_id : Int) :
    (∀ stat, ts_bgw_job_stat_find cat job_id = some stat →
      ts_bgw_job_stat_find (enable_fast_restart cat job_id) job_id =
        some { stat with next_start := stat.last_start }) ∧
    (ts_bgw_job_stat_find cat job_id = none →
      ts_bgw_job_stat_find (enable_fast_restart cat job_id) job_id =
        some { job_id := job_id, last_start := DT_NOBEGIN, last_finish := DT_NOBEGIN,
               next_start := cat.now }) :=
  ⟨fun stat hstat => enable_fast_restart_find_some cat job_id stat hstat,
   fun hnone => enable_fast_restart_find_none cat job_id hnone⟩

/-- C5 witness: with a prior stat row (`last_start = 99`) the controller sets
`next_start = 99`; without one it seeds a row with `next_start = now = 77`. -/
theorem fast_restart_sets_next_start_witness :
    ts_bgw_job_stat_find
      (enable_fast_restart
        { job_stats := [{ job_id := 1, last_start := 99, last_finish := 3,
                          next_start := 5 }], now := 77 } 1) 1 =
      some { job_id := 1, last_start := 99, last_finish := 3, next_start := 99 } ∧
    ts_bgw_job_stat_find (enable_fast_restart { now := 77 } 1) 1 =
      some { job_id := 1, last_start := DT_NOBEGIN, last_finish := DT_NOBEGIN,
             next_start := 77 } :=
  ⟨(fast_restart_sets_next_start
      { job_stats := [{ job_id := 1, last_start := 99, last_finish := 3,
                        next_start := 5 }], now := 77 } 1).1
      { job_id := 1, last_start := 99, last_finish := 3, next_start := 5 } rfl,
   (fast_restart_sets_next_start { now := 77 } 1).2 rfl⟩

/-- C8: a reorder or compression run that finds no eligible chunk returns
success with only an informational notice — no error is raised and the
catalog is untouched. -/
theorem no_eligible_work_is_success (cat : Catalog) (job_id : Int) (cfgR cfgC : Jsonb)
    (prd : PolicyReorderData) (pcd : PolicyCompressionData)
    (hrv : policy_reorder_read_and_validate_config cat cfgR = .ok prd)
    (hrn : get_chunk_id_to_reorder cat job_id prd.hypertable = none)
    (hcv : policy_compression_read_and_validate_config cat cfgC = .ok pcd)
    (hcn : get_chunk_to_compress cat pcd.hypertable.open_dim cfgC = .ok none) :
    policy_reorder_execute cat job_id cfgR =
      .ok { cat := cat, result := true, notices := ["no chunks need reordering"],
            actions := [] } ∧
    policy_compression_execute cat job_id cfgC =
      .ok { cat := cat, result := true,
            notices := ["no chunks that satisfy compress chunk policy"],
            actions := [] } := by
  constructor
  · unfold policy_reorder_execute
    simp only [hrv, hrn]
  · unfold policy_compression_execute
    simp only [hcv, hcn]
    simp

/-- C8 witness: on a hypertable with no chunks at all, both the reorder and
the compression policy succeed with their notices. -/
theorem no_eligible_work_is_success_witness :
    policy_reorder_execute
      { hypertables := [{ id := 1, schema_name := "public", table_name := "t",
                          main_table_relid := 10,
                          open_dim := { id := 3, isIntegerType := false } }],
        relations := [{ schema_name := "public", rel_name := "idx", relid := 20 }],
        indexes := [{ index_relid := 20, indrelid := 10 }], now := 1000 } 4
      { hypertable_id := some 1, index_name := some "idx" } =
      .ok { cat := { hypertables := [{ id := 1, schema_name := "public",
                                       table_name := "t", main_table_relid := 10,
                                       open_dim := { id := 3, isIntegerType := false } }],
                     relations := [{ schema_name := "public", rel_name := "idx",
                                     relid := 20 }],
                     indexes := [{ index_relid := 20, indrelid := 10 }], now := 1000 },
            result := true, notices := ["no chunks need reordering"], actions := [] } ∧
    policy_compression_execute
      { hypertables := [{ id := 1, schema_name := "public", table_name := "t",
                          main_table_relid := 10,
                          open_dim := { id := 3, isIntegerType := false } }],
        relations := [{ schema_name := "public", rel_name := "idx", relid := 20 }],
        indexes := [{ index_relid := 20, indrelid := 10 }], now := 1000 } 4
      { hypertable_id := some 1, compress_after := some 5 } =
      .ok { cat := { hypertables := [{ id := 1, schema_name := "public",
                                       table_name := "t", main_table_relid := 10,
                                       open_dim := { id := 3, isIntegerType := false } }],
                     relations := [{ schema_name := "public", rel_name := "idx",
                                     relid := 20 }],
                     indexes := [{ index_relid := 20, indrelid := 10 }], now := 1000 },
            result := true, notices := ["no chunks that satisfy compress chunk policy"],
            actions := [] } :=
  no_eligible_work_is_success
    { hypertables := [{ id := 1, schema_name := "public", table_name := "t",
                        main_table_relid := 10,
                        open_dim := { id := 3, isIntegerType := false } }],
      relations := [{ schema_name := "public", rel_name := "idx", relid := 20 }],
      indexes := [{ index_relid := 20, indrelid := 10 }], now := 1000 } 4
    { hypertable_id := some 1, index_name := some "idx" }
    { hypertable_id := some 1, compress_after := some 5 }
    { hypertable := { id := 1, schema_name := "public", table_name := "t",
                      main_table_relid := 10,
                      open_dim := { id := 3, isIntegerType := false } },
      index_relid := 20 }
    { hypertable := { id := 1, schema_name := "public", table_name := "t",
                      main_table_relid := 10,
                      open_dim := { id := 3, isIntegerType := false } } }
    rfl rfl rfl rfl

/-- C7: the retention validator resolves its drop target by reverse lookup on
the materialization id — when the configured hypertable backs a continuous
aggregate, the target is the relid of the aggregate's user-facing view, never
the materialization table; otherwise it is the hypertable's own relid — and
the executor's drop action is issued against exactly that target. -/
theorem retention_drop_redirects_to_cagg_view
    (cat : Catalog) (job_id : Int) (cfg : Jsonb) (htid : Int) (ht : Hypertable)
    (dim : Dimension) (b : Int)
    (h1 : cfg.hypertable_id = some htid)
    (h2 : ts_hypertable_cache_get_cache_and_entry cat
      (ts_hypertable_id_to_relid cat htid) = .ok ht)
    (h3 : get_open_dimension_for_hypertable cat ht = .ok dim)
    (h4 : get_window_boundary cat dim cfg policy_retention_get_drop_after_int
      policy_retention_get_drop_after_interval = .ok b) :
    ∃ pd, policy_retention_read_and_validate_config cat cfg = .ok pd ∧
      pd.boundary = b ∧
      pd.object_relid =
        (match ts_continuous_agg_find_by_mat_hypertable_id cat ht.id with
         | some cagg => get_relname_relid cat cagg.user_view_name cagg.user_view_schema
         | none => ts_hypertable_id_to_relid cat htid) ∧
      policy_retention_execute cat job_id cfg =
        .ok { cat := cat, result := true, notices := [],
              actions := [StorageAction.dropChunks pd.object_relid pd.boundary] } := by
  have hg : policy_retention_get_hypertable_id cfg = .ok htid := by
    unfold policy_retention_get_hypertable_id
    rw [h1]
  have hval : policy_retention_read_and_validate_config cat cfg =
      .ok { object_relid :=
              match ts_continuous_agg_find_by_mat_hypertable_id cat ht.id with
              | some cagg => get_relname_relid cat cagg.user_view_name cagg.user_view_schema
              | none => ts_hypertable_id_to_relid cat htid,
            boundary := b, boundary_type_is_int := dim.isIntegerType } := by
    unfold policy_retention_read_and_validate_config
    simp only [hg, h2, h3, h4]
  refine ⟨_, hval, rfl, rfl, ?_⟩
  unfold policy_retention_execute
  simp only [hval]

/-- C7 witness: retention configured with the materialization hypertable
(relid 50) of the continuous aggregate behind view `my_view` (relid 99) drops
against relid 99, not 50; the same validator without a continuous aggregate
would return the hypertable relid itself. -/
theorem retention_drop_redirects_to_cagg_view_witness :
    policy_retention_execute
      { hypertables := [{ id := 2, schema_name := "_timescaledb_internal",
                          table_name := "_materialized_hypertable_2",
                          main_table_relid := 50,
                          open_dim := { id := 3, isIntegerType := false } }],
        caggs := [{ mat_hypertable_id := 2, user_view_schema := "public",
                    user_view_name := "my_view" }],
        relations := [{ schema_name := "public", rel_name := "my_view", relid := 99 }],
        now := 1000 } 4
      { hypertable_id := some 2, drop_after := some 100 } =
      .ok { cat := { hypertables := [{ id := 2, schema_name := "_timescaledb_internal",
                                       table_name := "_materialized_hypertable_2",
                                       main_table_relid := 50,
                                       open_dim := { id := 3, isIntegerType := false } }],
                     caggs := [{ mat_hypertable_id := 2, user_view_schema := "public",
                                 user_view_name := "my_view" }],
                     relations := [{ schema_name := "public", rel_name := "my_view",
                                     relid := 99 }],
                     now := 1000 },
            result := true, notices := [],
            actions := [StorageAction.dropChunks 99 900] } ∧
    (99 : Int) ≠ 50 := by
  obtain ⟨pd, hval, hb, ho, hexec⟩ := retention_drop_redirects_to_cagg_view
    { hypertables := [{ id := 2, schema_name := "_timescaledb_internal",
                        table_name := "_materialized_hypertable_2",
                        main_table_relid := 50,
                        open_dim := { id := 3, isIntegerType := false } }],
      caggs := [{ mat_hypertable_id := 2, user_view_schema := "public",
                  user_view_name := "my_view" }],
      relations := [{ schema_name := "public", rel_name := "my_view", relid := 99 }],
      now := 1000 } 4
    { hypertable_id := some 2, drop_after := some 100 } 2
    { id := 2, schema_name := "_timescaledb_internal",
      table_name := "_materialized_hypertable_2", main_table_relid := 50,
      open_dim := { id := 3, isIntegerType := false } }
    { id := 3, isIntegerType := false } 900 rfl rfl rfl rfl
  rw [hb, ho] at hexec
  exact ⟨hexec, by decide⟩

/-- C6: a compression run that compresses one chunk re-scans afterwards: when
another eligible chunk remains, fast restart fires and the job's `next_start`
becomes its previous `last_start`; when none remains, the stat table is left
exactly as it was. -/
theorem compression_fast_restart
    (cat : Catalog) (job_id : Int) (cfg : Jsonb) (pd : PolicyCompressionData)
    (cid : Int) (ch : Chunk) (stat : BgwJobStatFd) (resel : Option Int)
    (hval : policy_compression_read_and_validate_config cat cfg = .ok pd)
    (hsel : get_chunk_to_compress cat pd.hypertable.open_dim cfg = .ok (some cid))
    (hch : ts_chunk_get_by_id cat cid = some ch)
    (hresel : get_chunk_to_compress (tsl_compress_chunk_wrapper cat cid)
      pd.hypertable.open_dim cfg = .ok resel)
    (hstat : ts_bgw_job_stat_find cat job_id = some stat) :
    ∃ out, policy_compression_execute cat job_id cfg = .ok out ∧
      out.actions = [StorageAction.compressChunk cid] ∧
      (resel.isSome = true →
        ts_bgw_job_stat_find out.cat job_id =
          some { stat with next_start := stat.last_start }) ∧
      (resel = none → out.cat.job_stats = cat.job_stats) := by
  unfold policy_compression_execute
  simp only [hval, hsel, hch, hresel]
  refine ⟨_, rfl, rfl, ?_, ?_⟩
  · intro hpos
    simp only [hpos, if_true]
    exact enable_fast_restart_find_some (tsl_compress_chunk_wrapper cat cid)
      job_id stat hstat
  · intro hnone
    subst hnone
    simp only [Option.isSome_none, Bool.false_eq_true, if_false]
    rfl

/-- C6 witness: with two eligible chunks (boundary 900), one run compresses
chunk 11, finds chunk 12 still eligible, and forces `next_start` back to the
previous `last_start = 555`. -/
theorem compression_fast_restart_witness :
    ∃ out, policy_compression_execute
      { job_stats := [{ job_id := 4, last_start := 555, last_finish := 3,
                        next_start := 7 }],
        hypertables := [{ id := 1, schema_name := "public", table_name := "t",
                          main_table_relid := 10,
                          open_dim := { id := 3, isIntegerType := false } }],
        chunks := [{ id := 11, hypertable_id := 1, dimension_id := 3,
                     range_start := 0, range_end := 10 },
                   { id := 12, hypertable_id := 1, dimension_id := 3,
                     range_start := 10, range_end := 20 }],
        now := 1000 } 4
      { hypertable_id := some 1, compress_after := some 100 } = .ok out ∧
      out.actions = [StorageAction.compressChunk 11] ∧
      ts_bgw_job_stat_find out.cat 4 =
        some { job_id := 4, last_start := 555, last_finish := 3,
               next_start := 555 } := by
  obtain ⟨out, h1, h2, h3, h4⟩ := compression_fast_restart
    { job_stats := [{ job_id := 4, last_start := 555, last_finish := 3,
                      next_start := 7 }],
      hypertables := [{ id := 1, schema_name := "public", table_name := "t",
                        main_table_relid := 10,
                        open_dim := { id := 3, isIntegerType := false } }],
      chunks := [{ id := 11, hypertable_id := 1, dimension_id := 3,
                   range_start := 0, range_end := 10 },
                 { id := 12, hypertable_id := 1, dimension_id := 3,
                   range_start := 10, range_end := 20 }],
      now := 1000 } 4
    { hypertable_id := some 1, compress_after := some 100 }
    { hypertable := { id := 1, schema_name := "public", table_name := "t",
                      main_table_relid := 10,
                      open_dim := { id := 3, isIntegerType := false } } }
    11
    { id := 11, hypertable_id := 1, dimension_id := 3, range_start := 0,
      range_end := 10 }
    { job_id := 4, last_start := 555, last_finish := 3, next_start := 7 }
    (some 12) rfl rfl rfl rfl rfl
  exact ⟨out, h1, h2, h3 rfl⟩

/-- A callable outside the internal schema is never validated. -/
theorem job_config_check_other_schema (cat : Catalog) (ps pn : String) (cfg : Jsonb)
    (h : ps ≠ INTERNAL_SCHEMA_NAME) : job_config_check cat ps pn cfg = .ok () := by
  have hc : (ps == INTERNAL_SCHEMA_NAME) = false := beq_eq_false_iff_ne.mpr h
  unfold job_config_check
  simp only [hc, Bool.false_eq_true, if_false]

/-- A callable in the internal schema whose name is none of the four built-in
policy names is never validated. -/
theorem job_config_check_other_name (cat : Catalog) (pn : String) (cfg : Jsonb)
    (h1 : pn ≠ "policy_retention") (h2 : pn ≠ "policy_reorder")
    (h3 : pn ≠ "policy_compression")
    (h4 : pn ≠ "policy_refresh_continuous_aggregate") :
    job_config_check cat INTERNAL_SCHEMA_NAME pn cfg = .ok () := by
  have c1 : (pn == "policy_retention") = false := beq_eq_false_iff_ne.mpr h1
  have c2 : (pn == "policy_reorder") = false := beq_eq_false_iff_ne.mpr h2
  have c3 : (pn == "policy_compression") = false := beq_eq_false_iff_ne.mpr h3
  have c4 : (pn == "policy_refresh_continuous_aggregate") = false :=
    beq_eq_false_iff_ne.mpr h4
  unfold job_config_check
  simp only [beq_self_eq_true, if_true, c1, c2, c3, c4, Bool.false_eq_true, if_false]

/-- C10: policy validation is dispatched exactly for the internal schema and
the four built-in policy names — each of those dispatches to its policy's
validator — and for any other schema `job_add` stores an arbitrary config
document untouched, with no validation at all. -/
theorem config_check_dispatches_only_builtin_policies :
    (∀ (cat : Catalog) (ps pn : String) (cfg : Jsonb), ps ≠ INTERNAL_SCHEMA_NAME →
      job_config_check cat ps pn cfg = .ok ()) ∧
    (∀ (cat : Catalog) (pn : String) (cfg : Jsonb),
      pn ≠ "policy_retention" → pn ≠ "policy_reorder" → pn ≠ "policy_compression" →
      pn ≠ "policy_refresh_continuous_aggregate" →
      job_config_check cat INTERNAL_SCHEMA_NAME pn cfg = .ok ()) ∧
    (∀ (cat : Catalog) (cfg : Jsonb),
      job_config_check cat INTERNAL_SCHEMA_NAME "policy_retention" cfg =
        (policy_retention_read_and_validate_config cat cfg).map (fun _ => ()) ∧
      job_config_check cat INTERNAL_SCHEMA_NAME "policy_reorder" cfg =
        (policy_reorder_read_and_validate_config cat cfg).map (fun _ => ()) ∧
      job_config_check cat INTERNAL_SCHEMA_NAME "policy_compression" cfg =
        (policy_compression_read_and_validate_config cat cfg).map (fun _ => ()) ∧
      job_config_check cat INTERNAL_SCHEMA_NAME
          "policy_refresh_continuous_aggregate" cfg =
        (policy_refresh_cagg_read_and_validate_config cat cfg).map (fun _ => ())) ∧
    (∀ (cat : Catalog) (a : AddArgs) (owner : String) (nid : Int) (ps pn : String)
       (si : PgInterval) (cfg : Jsonb),
      a.proc = some (ps, pn) → a.schedule_interval = some si → a.config = some cfg →
      a.initial_start = none → ps ≠ INTERNAL_SCHEMA_NAME →
      ∃ row : BgwJobFd, job_add cat a owner true true nid =
        .ok ({ cat with jobs := cat.jobs ++ [row] }, nid) ∧ row.config = some cfg) := by
  refine ⟨job_config_check_other_schema, job_config_check_other_name,
    fun cat cfg => ⟨rfl, rfl, rfl, rfl⟩, ?_⟩
  intro cat a owner nid ps pn si cfg hproc hsi hcfg hinit hns
  refine ⟨{ id := nid, application_name := "User-Defined Action", job_type := "custom",
            schedule_interval := si, max_runtime := DEFAULT_MAX_RUNTIME,
            max_retries := DEFAULT_MAX_RETRIES, retry_period := DEFAULT_RETRY_PERIOD,
            proc_schema := ps, proc_name := pn, owner := owner,
            scheduled := a.scheduled.getD true, config := some cfg }, ?_, rfl⟩
  unfold job_add
  simp only [hproc, hsi, hcfg, hinit, job_config_check_other_schema cat ps pn cfg hns,
    Bool.not_true, Bool.false_eq_true, if_false]

/-- C10 witness: a config with no recognizable policy field is accepted
unvalidated for a callable `public.my_proc`, and `job_add` stores it as-is. -/
theorem config_check_dispatches_only_builtin_policies_witness :
    job_config_check {} "public" "my_proc" { drop_after := some 1 } = .ok () ∧
    (∃ row : BgwJobFd,
      job_add {} { proc := some ("public", "my_proc"), schedule_interval := some 60,
                   config := some { drop_after := some 1 } } "bob" true true 101 =
        .ok ({ jobs := [row] }, 101) ∧
      row.config = some { drop_after := some 1 }) := by
  have h := config_check_dispatches_only_builtin_policies
  refine ⟨h.1 {} "public" "my_proc" { drop_after := some 1 } (by decide), ?_⟩
  obtain ⟨row, hadd, hcfg⟩ := h.2.2.2 {}
    { proc := some ("public", "my_proc"), schedule_interval := some 60,
      config := some { drop_after := some 1 } } "bob" 101 "public" "my_proc" 60
    { drop_after := some 1 } rfl rfl rfl rfl (by decide)
  exact ⟨row, hadd, hcfg⟩
